import Mathlib

/-
Shallow embedding of the TIF surplus dashboard (src/app.py).

Amount columns are modelled as exact rationals (the Python code uses
floats; the algebraic identities below hold exactly in ℚ). The two input
CSV tables become lists of records; pandas column operations become list
operations translated line by line from app.py.
-/

namespace TifApp

/-- City of Chicago property-tax share, app.py line 68: `chi = 1.741/6.995`. -/
def chi : ℚ := 1741 / 6995

/-- CPS property-tax share, app.py line 69: `cps = 3.829/6.995`. -/
def cps : ℚ := 3829 / 6995

/-- One row of `data.csv` (the district table), with the columns app.py reads. -/
structure District where
  tif_name_comptroller_report : String
  tif_num_ctu : String
  designation_date : String
  expiration_date : String
  unallocated_funds_2025 : ℚ
  surplus_2025 : ℚ
  full_surplus_avg_method_25 : ℚ
  full_surplus_poly_method_25 : ℚ
  full_surplus_weighted_method_25 : ℚ
deriving Repr, DecidableEq

/-- Python `str(s)[-4:]`: the last four characters of a string (all of it when
shorter than four). -/
def lastFour (s : String) : String :=
  String.mk (s.data.drop (s.data.length - 4))

/-- The load-time filter, app.py line 16:
`df = df[df['expiration_date'].astype(str).str[-4:] != '2024']`. -/
def filterDistricts (l : List District) : List District :=
  l.filter (fun d => lastFour d.expiration_date != "2024")

/-- Apportionment: `amount * share` (applied throughout app.py as `x * cps`
or `x * chi`). -/
def apportion (a s : ℚ) : ℚ := a * s

/-- A pandas column sum `df[col].sum()` over the district table. -/
def colSum (f : District → ℚ) (l : List District) : ℚ :=
  (l.map f).sum

/-- Minimum of five values, the `.min(axis=1)` over the five surplus-method
columns (app.py lines 202, 206). -/
def min5 (a b c d e : ℚ) : ℚ := min a (min b (min c (min d e)))

/-- Maximum of five values, the `.max(axis=1)` over the five surplus-method
columns (app.py line 207). -/
def max5 (a b c d e : ℚ) : ℚ := max a (max b (max c (max d e)))

/-- Per-row minimum across the five surplus-method columns of one district. -/
def rowMin (d : District) : ℚ :=
  min5 d.unallocated_funds_2025 d.surplus_2025 d.full_surplus_avg_method_25
    d.full_surplus_poly_method_25 d.full_surplus_weighted_method_25

/-- Per-row maximum across the five surplus-method columns of one district. -/
def rowMax (d : District) : ℚ :=
  max5 d.unallocated_funds_2025 d.surplus_2025 d.full_surplus_avg_method_25
    d.full_surplus_poly_method_25 d.full_surplus_weighted_method_25

/-- City-wide totals table, CPS column minimum (app.py lines 59-91): the
min over the CPS Surplus Revenue column of the five method totals. -/
def cityCpsMin (l : List District) : ℚ :=
  min5 (colSum District.unallocated_funds_2025 l * cps)
    (colSum District.surplus_2025 l * cps)
    (colSum District.full_surplus_avg_method_25 l * cps)
    (colSum District.full_surplus_poly_method_25 l * cps)
    (colSum District.full_surplus_weighted_method_25 l * cps)

/-- City-wide totals table, CPS column maximum (app.py line 92). -/
def cityCpsMax (l : List District) : ℚ :=
  max5 (colSum District.unallocated_funds_2025 l * cps)
    (colSum District.surplus_2025 l * cps)
    (colSum District.full_surplus_avg_method_25 l * cps)
    (colSum District.full_surplus_poly_method_25 l * cps)
    (colSum District.full_surplus_weighted_method_25 l * cps)

/-- Minimum over the five raw method totals. -/
def cityRawMin (l : List District) : ℚ :=
  min5 (colSum District.unallocated_funds_2025 l)
    (colSum District.surplus_2025 l)
    (colSum District.full_surplus_avg_method_25 l)
    (colSum District.full_surplus_poly_method_25 l)
    (colSum District.full_surplus_weighted_method_25 l)

/-- Maximum over the five raw method totals. -/
def cityRawMax (l : List District) : ℚ :=
  max5 (colSum District.unallocated_funds_2025 l)
    (colSum District.surplus_2025 l)
    (colSum District.full_surplus_avg_method_25 l)
    (colSum District.full_surplus_poly_method_25 l)
    (colSum District.full_surplus_weighted_method_25 l)

/-- Single-district table, CPS column minimum (app.py lines 129-149): the
five apportioned method values of the selected district. -/
def districtCpsMin (d : District) : ℚ :=
  min5 (d.unallocated_funds_2025 * cps) (d.surplus_2025 * cps)
    (d.full_surplus_avg_method_25 * cps) (d.full_surplus_poly_method_25 * cps)
    (d.full_surplus_weighted_method_25 * cps)

/-- Single-district table, CPS column maximum (app.py line 150). -/
def districtCpsMax (d : District) : ℚ :=
  max5 (d.unallocated_funds_2025 * cps) (d.surplus_2025 * cps)
    (d.full_surplus_avg_method_25 * cps) (d.full_surplus_poly_method_25 * cps)
    (d.full_surplus_weighted_method_25 * cps)

/-- Descending comparison on the designated column used by
`df.nlargest(5, 'full_surplus_poly_method_25')` (app.py line 177). -/
def polyLe (a b : District) : Bool :=
  decide (b.full_surplus_poly_method_25 ≤ a.full_surplus_poly_method_25)

/-- pandas `nlargest(5, col)` with the default `keep='first'`: sort
descending on the column, stably (ties keep input order), take the first 5. -/
def top5 (l : List District) : List District :=
  (l.mergeSort polyLe).take 5

/-- The displayed top-5 CPS minimum (app.py lines 206, 210, 216): per-row
minimum times `cps`, then summed over the five selected rows. -/
def top5CpsMinValue (l : List District) : ℚ :=
  ((top5 l).map (fun d => rowMin d * cps)).sum

/-- The displayed top-5 CPS maximum (app.py lines 207, 211, 217). -/
def top5CpsMaxValue (l : List District) : ℚ :=
  ((top5 l).map (fun d => rowMax d * cps)).sum

/-- One row of `ward_data.csv` before normalization: `tif_num` and `ward_id`
may be missing (NaN), `tif_coverage` is a fraction. -/
structure WardRow where
  tif_num : Option String
  ward_id : Option Int
  tif_coverage : ℚ
deriving Repr, DecidableEq

/-- Python `str.zfill(w)` for the digit strings produced here: left-pad with
zeros to width `w`, never truncate. -/
def zfill (w : Nat) (s : String) : String :=
  if w ≤ s.length then s else String.mk (List.replicate (w - s.length) '0') ++ s

/-- Value of a digit string, Python `int` on a string of decimal digits. -/
def digitsVal (l : List Char) : Nat :=
  l.foldl (fun acc c => acc * 10 + (c.toNat - 48)) 0

/-- Python `int(s)` restricted to non-empty strings of decimal digits (the
shape the ward table's identifiers take after the prefix is stripped);
`none` models the `ValueError` that `astype(int)` raises otherwise. -/
def parseNat? (l : List Char) : Option Nat :=
  if l ≠ [] ∧ ∀ c ∈ l, c.isDigit then some (digitsVal l) else none

/-- Python `str.strip()`: remove leading and trailing whitespace. -/
def pythonStrip (s : String) : String :=
  String.mk (((s.data.dropWhile Char.isWhitespace).reverse.dropWhile
    Char.isWhitespace).reverse)

/-- Key normalization, app.py lines 244-248: drop the first two characters,
parse the remainder as an integer, render back as a string, strip, zero-pad
to 3, prefix with T-. `astype(int)` raises on a non-numeric remainder; this
embedding returns `none` there (the claims under test only concern
parseable remainders), and `none` is also how the `dropna` exclusion of
null identifiers surfaces. -/
def normalizeTifNum (raw : String) : Option String :=
  (parseNat? (raw.data.drop 2)).map
    (fun n => "T-" ++ zfill 3 (pythonStrip (toString n)))

/-- The normalized ward table: `dropna(subset=['tif_num'])` (app.py line 242)
followed by the key normalization of lines 244-248. -/
def normalizedWardRows (l : List WardRow) : List (String × Option Int × ℚ) :=
  l.filterMap (fun r =>
    r.tif_num.bind (fun raw =>
      (normalizeTifNum raw).map (fun k => (k, r.ward_id, r.tif_coverage))))

/-- One row of the merged table `df3` after `dropna(subset=['ward_id'])`
(app.py lines 250-253): a district joined to one ward it overlaps. -/
structure JoinedRow where
  district : District
  ward_id : Int
  tif_coverage : ℚ
deriving Repr, DecidableEq

/-- The merge of app.py line 250 (`df.merge(df2, left_on='tif_num_ctu',
right_on='tif_num', how='left')`) followed by line 253's drop of rows with
no resolved `ward_id`: each district paired with every matching ward row. -/
def joinedRows (ds : List District) (ws : List WardRow) : List JoinedRow :=
  ds.flatMap (fun d =>
    (normalizedWardRows ws).filterMap (fun kw =>
      if kw.1 = d.tif_num_ctu then kw.2.1.map (fun w => ⟨d, w, kw.2.2⟩)
      else none))

/-- The rows of `df3` belonging to one ward (the groupby key of app.py
line 265, and the `df3[df3['ward_id'] == selected_wards]` of line 312). -/
def wardRows (w : Int) (rows : List JoinedRow) : List JoinedRow :=
  rows.filter (fun r => r.ward_id == w)

/-- Ward aggregation of a raw surplus-method column (app.py lines 265-276):
group by `ward_id` and sum the column; one ward's entry. -/
def wardSum (f : District → ℚ) (w : Int) (rows : List JoinedRow) : ℚ :=
  ((wardRows w rows).map (fun r => f r.district)).sum

/-- Ward aggregation of an apportioned revenue column (app.py lines 259-276):
multiply the column by `cps` per row (lines 259-263), then group-sum. -/
def wardRevSum (f : District → ℚ) (w : Int) (rows : List JoinedRow) : ℚ :=
  ((wardRows w rows).map (fun r => f r.district * cps)).sum

/-- The displayed ward-range minimum (app.py lines 334, 338, 346): per-row
minimum over the five method columns, times `cps`, summed over the ward. -/
def wardCpsMinValue (w : Int) (rows : List JoinedRow) : ℚ :=
  ((wardRows w rows).map (fun r => rowMin r.district * cps)).sum

/-- The displayed ward-range maximum (app.py lines 335, 339, 347). -/
def wardCpsMaxValue (w : Int) (rows : List JoinedRow) : ℚ :=
  ((wardRows w rows).map (fun r => rowMax r.district * cps)).sum

/-- State of one input CSV as `read_csv` can encounter it: present and
parseable, absent, or present but unreadable (permission denied, malformed
contents, and so on). -/
inductive FileState (α : Type) where
  | readable : α → FileState α
  | missing : FileState α
  | unreadable : FileState α
deriving Repr, DecidableEq

/-- Exceptions `read_csv` can raise: `FileNotFoundError` for a missing
file, or some other error (`PermissionError`, a parse error, ...) for a
present but unreadable one. -/
inductive ReadError where
  | fileNotFound : ReadError
  | otherError : ReadError
deriving Repr, DecidableEq

/-- The file system visible to `load_data`: the state of each input CSV. -/
structure Env where
  data_csv : FileState (List District)
  ward_csv : FileState (List WardRow)

/-- pandas `read_csv`: returns the table when the file exists and is
readable, raises `FileNotFoundError` when it is missing, and raises some
other exception when it is present but unreadable. -/
def read_csv {α : Type} (file : FileState α) : Except ReadError α :=
  match file with
  | FileState.readable a => Except.ok a
  | FileState.missing => Except.error ReadError.fileNotFound
  | FileState.unreadable => Except.error ReadError.otherError

/-- Outcome of a completed `load_data` call: either both tables (the
district table already filtered, app.py line 16) or no tables plus the
user-visible error message. -/
structure LoadOutcome where
  tables : Option (List District × List WardRow)
  errorMessage : Option String
deriving Repr, DecidableEq

/-- The `st.error` text of app.py line 19. -/
def loadErrorMessage : String :=
  "Data file not found: FileNotFoundError. Please ensure the CSV files are in the correct location."

/-- app.py lines 10-20: try reading both CSVs; the except clause at line 18
names only `FileNotFoundError`, so that exception is turned into an
`st.error` message plus `(None, None)`, while any other read error
propagates out of `load_data` uncaught (the `Except.error` result). -/
def load_data (env : Env) : Except ReadError LoadOutcome :=
  match read_csv env.data_csv with
  | Except.error ReadError.fileNotFound => Except.ok ⟨none, some loadErrorMessage⟩
  | Except.error e => Except.error e
  | Except.ok d =>
    match read_csv env.ward_csv with
    | Except.error ReadError.fileNotFound => Except.ok ⟨none, some loadErrorMessage⟩
    | Except.error e => Except.error e
    | Except.ok w => Except.ok ⟨some (filterDistricts d, w), none⟩

/-- The figures the page renders once data is available; every field reuses
the pipeline definitions above. -/
structure Rendered where
  cityMin : ℚ
  cityMax : ℚ
  topMin : ℚ
  topMax : ℚ
  wardTable : List JoinedRow
deriving Repr, DecidableEq

/-- The rendering computed by `main` after a successful load. -/
def render (ds : List District) (ws : List WardRow) : Rendered :=
  ⟨cityCpsMin ds, cityCpsMax ds, top5CpsMinValue ds, top5CpsMaxValue ds,
    joinedRows ds ws⟩

/-- app.py lines 24-29: `main` loads the data and returns (rendering
nothing) when either table is `None`; an exception escaping `load_data`
also escapes `main` (the `Except.error` result). -/
def appMain (env : Env) : Except ReadError (Option Rendered) :=
  match load_data env with
  | Except.error e => Except.error e
  | Except.ok o =>
    match o.tables with
    | none => Except.ok none
    | some (d, w) => Except.ok (some (render d w))

/-- Coverage replacement: each joined row's `tif_coverage` rewritten by an
arbitrary function, leaving district data and ward assignment untouched. -/
def setCoverage (g : JoinedRow → ℚ) (rows : List JoinedRow) : List JoinedRow :=
  rows.map (fun r => { r with tif_coverage := g r })

/-- Concrete district used in examples: per-method amounts 10, 20, 30, 40, 50. -/
def demoA : District :=
  ⟨"Demo A", "T-101", "01/01/2000", "12/31/2031", 10, 20, 30, 40, 50⟩

/-- Concrete district used in examples: per-method amounts 50, 5, 30, 40, 50;
its designated-column value ties with `demoA`. -/
def demoB : District :=
  ⟨"Demo B", "T-102", "01/01/2000", "12/31/2032", 50, 5, 30, 40, 50⟩

/-- Scenario district T-001 of the end-to-end test case. -/
def T001 : District :=
  ⟨"District One", "T-001", "01/01/2007", "12/31/2030",
    1000000, 500000, 400000, 450000, 420000⟩

/-- Scenario district T-002 of the end-to-end test case: expires in 2024. -/
def T002 : District :=
  ⟨"District Two", "T-002", "01/01/2001", "12/31/2024",
    700000, 300000, 200000, 250000, 220000⟩

/-- Concrete district with amount 100 in every method column, joined to two
wards in the coverage example. -/
def demo100 : District :=
  ⟨"Demo Hundred", "T-001", "01/01/2000", "12/31/2031", 100, 100, 100, 100, 100⟩

/-- Two ward-table rows mapping the same raw district id to ward 1 at 10%
coverage and ward 2 at 90% coverage. -/
def demoWardRows : List WardRow :=
  [⟨some "TF001", some 1, 1 / 10⟩, ⟨some "TF001", some 2, 9 / 10⟩]

/-- Concrete district expiring in 2030, kept by the load-time filter. -/
def demo2030 : District :=
  ⟨"Demo 2030", "T-999", "01/01/2000", "12/31/2030", 1, 2, 3, 4, 5⟩

theorem cps_nonneg : (0 : ℚ) ≤ cps := by norm_num [cps]

theorem minMulRight (a b r : ℚ) (hr : 0 ≤ r) : min (a * r) (b * r) = min a b * r := by
  rcases le_total a b with h | h
  · rw [min_eq_left (mul_le_mul_of_nonneg_right h hr), min_eq_left h]
  · rw [min_eq_right (mul_le_mul_of_nonneg_right h hr), min_eq_right h]

theorem maxMulRight (a b r : ℚ) (hr : 0 ≤ r) : max (a * r) (b * r) = max a b * r := by
  rcases le_total a b with h | h
  · rw [max_eq_right (mul_le_mul_of_nonneg_right h hr), max_eq_right h]
  · rw [max_eq_left (mul_le_mul_of_nonneg_right h hr), max_eq_left h]

theorem min5MulRight (a b c d e r : ℚ) (hr : 0 ≤ r) :
    min5 (a * r) (b * r) (c * r) (d * r) (e * r) = min5 a b c d e * r := by
  unfold min5
  rw [minMulRight d e r hr, minMulRight c (min d e) r hr,
    minMulRight b (min c (min d e)) r hr, minMulRight a _ r hr]

theorem max5MulRight (a b c d e r : ℚ) (hr : 0 ≤ r) :
    max5 (a * r) (b * r) (c * r) (d * r) (e * r) = max5 a b c d e * r := by
  unfold max5
  rw [maxMulRight d e r hr, maxMulRight c (max d e) r hr,
    maxMulRight b (max c (max d e)) r hr, maxMulRight a _ r hr]

theorem min5_le_max5 (a b c d e : ℚ) : min5 a b c d e ≤ max5 a b c d e :=
  le_trans (min_le_left _ _) (le_max_left _ _)

theorem sumMapMulRight {α : Type} (g : α → ℚ) (r : ℚ) (l : List α) :
    (l.map (fun x => g x * r)).sum = (l.map g).sum * r := by
  induction l with
  | nil => simp
  | cons a t ih => simp [ih, add_mul]

theorem wardSum_setCoverage (f : District → ℚ) (w : Int) (g : JoinedRow → ℚ)
    (rows : List JoinedRow) :
    wardSum f w (setCoverage g rows) = wardSum f w rows := by
  induction rows with
  | nil => rfl
  | cons r t ih =>
    obtain ⟨d, wid, cov⟩ := r
    unfold wardSum wardRows setCoverage at *
    by_cases h : wid == w
    · simp only [List.map_cons, List.filter_cons, h]
      simpa [List.map_cons] using congrArg (fun x => f d + x) ih
    · simpa only [List.map_cons, List.filter_cons, h] using ih

/-- C7: every district row surviving the load-time filter has an expiration
date whose last four characters, compared as a string, differ from 2024. -/
theorem exclusion_invariant (l : List District) (d : District)
    (h : d ∈ filterDistricts l) : lastFour d.expiration_date ≠ "2024" := by
  have h2 := (List.mem_filter.mp h).2
  simpa using h2

/-- Witness for the exclusion invariant at a concrete filtered table. -/
theorem exclusion_invariant_witness :
    lastFour demo2030.expiration_date ≠ "2024" :=
  exclusion_invariant [demo2030] demo2030 (by decide)

/-- C5 counterexample: at amount 0 the claimed strict inequality fails
(both apportionments are 0, and 0 is not less than 0), and the claimed
approximate value 0.8084 for the share sum is off by more than one
hundredth (the true sum is about 0.7963). -/
theorem apportion_strict_bound_fails :
    ¬ (apportion 0 cps + apportion 0 chi < (0 : ℚ)) ∧
      ¬ |cps + chi - 8084 / 10000| < 1 / 100 := by
  constructor
  · norm_num [apportion]
  · have h : |cps + chi - 8084 / 10000| = 42379 / 3497500 := by
      rw [abs_of_neg (by norm_num [cps, chi])]
      norm_num [cps, chi]
    rw [h]
    norm_num

/-- C5 amended: for every strictly positive amount the two apportionments
sum to strictly less than the amount, and the share sum equals 1114/1399,
about 0.7963. -/
theorem apportion_strict_bound_pos (a : ℚ) (h : 0 < a) :
    apportion a cps + apportion a chi < a ∧ cps + chi = 1114 / 1399 := by
  refine ⟨?_, by norm_num [cps, chi]⟩
  have hs : cps + chi < 1 := by norm_num [cps, chi]
  have he : apportion a cps + apportion a chi = a * (cps + chi) := by
    unfold apportion; ring
  rw [he]
  calc a * (cps + chi) < a * 1 := (mul_lt_mul_left h).mpr hs
  _ = a := mul_one a

/-- Witness for the amended strict bound at amount 1. -/
theorem apportion_strict_bound_pos_witness :
    apportion 1 cps + apportion 1 chi < (1 : ℚ) ∧ cps + chi = 1114 / 1399 :=
  apportion_strict_bound_pos 1 (by norm_num)

/-- C8 counterexample: in the stated two-district scenario, the
CPS-apportioned unallocated total is not within a dollar of 547534 (it is
about 547391). -/
theorem end_to_end_cps_total_ne :
    ¬ |colSum District.unallocated_funds_2025 (filterDistricts [T001, T002]) * cps
        - 547534| < 1 := by
  have h1 : filterDistricts [T001, T002] = [T001] := rfl
  have h2 : colSum District.unallocated_funds_2025 [T001] = 1000000 := by
    simp [colSum, T001]
  rw [h1, h2]
  have h3 : (1000000 : ℚ) * cps - 547534 = -(200066 / 1399) := by
    norm_num [cps]
  rw [h3, abs_neg, abs_of_pos (by norm_num)]
  norm_num

/-- C8 amended: the two-district scenario filters down to T-001 alone, the
city-wide unallocated total is 1000000, and the CPS-apportioned unallocated
total is 1000000 times 3829/6995, which equals 765800000/1399, within a
dollar of 547391. -/
theorem end_to_end_scenario :
    filterDistricts [T001, T002] = [T001] ∧
    colSum District.unallocated_funds_2025 (filterDistricts [T001, T002])
      = 1000000 ∧
    colSum District.unallocated_funds_2025 (filterDistricts [T001, T002]) * cps
      = 765800000 / 1399 ∧
    |colSum District.unallocated_funds_2025 (filterDistricts [T001, T002]) * cps
      - 547391| < 1 := by
  have h1 : filterDistricts [T001, T002] = [T001] := rfl
  have h2 : colSum District.unallocated_funds_2025 (filterDistricts [T001, T002])
      = 1000000 := by
    rw [h1]
    simp [colSum, T001]
  refine ⟨h1, h2, ?_, ?_⟩
  · rw [h2]
    norm_num [cps]
  · rw [h2]
    have h3 : (1000000 : ℚ) * cps - 547391 = -(9 / 1399) := by
      norm_num [cps]
    rw [h3, abs_neg, abs_of_pos (by norm_num)]
    norm_num

/-- C2: apportioning then summing equals summing then apportioning for
either fixed share (exactly, in the rational model), and in particular each
ward's apportioned revenue total equals the apportionment of that ward's
raw total. -/
theorem apportion_commutes_with_sum (s : ℚ) (_hs : s = cps ∨ s = chi)
    (l : List ℚ) (f : District → ℚ) (w : Int) (rows : List JoinedRow) :
    (l.map (fun a => apportion a s)).sum = apportion l.sum s ∧
    wardRevSum f w rows = apportion (wardSum f w rows) cps := by
  constructor
  · simp only [apportion]
    simpa using sumMapMulRight (fun x => x) s l
  · simp only [wardRevSum, wardSum, apportion]
    exact sumMapMulRight (fun r => f r.district) cps (wardRows w rows)

/-- Witness for apportionment commuting with summation on a concrete list. -/
theorem apportion_commutes_with_sum_witness :
    (([3, 4] : List ℚ).map (fun a => apportion a cps)).sum
      = apportion (([3, 4] : List ℚ)).sum cps :=
  (apportion_commutes_with_sum cps (Or.inl rfl) [3, 4]
    District.unallocated_funds_2025 0 []).1

/-- C3: ward aggregation does not weight by coverage: rewriting every
joined row's coverage fraction by any function leaves every ward's raw and
apportioned sums unchanged, and concretely a district with amount 100
joined to ward 1 at 10% coverage and ward 2 at 90% coverage contributes
the full 100 (and the full 100 times cps) to both wards. -/
theorem ward_agg_ignores_coverage (f : District → ℚ) (w : Int)
    (g : JoinedRow → ℚ) (rows : List JoinedRow) :
    wardSum f w (setCoverage g rows) = wardSum f w rows ∧
    wardRevSum f w (setCoverage g rows) = wardRevSum f w rows ∧
    wardSum District.unallocated_funds_2025 1 (joinedRows [demo100] demoWardRows)
      = 100 ∧
    wardSum District.unallocated_funds_2025 2 (joinedRows [demo100] demoWardRows)
      = 100 ∧
    wardRevSum District.unallocated_funds_2025 1 (joinedRows [demo100] demoWardRows)
      = 100 * cps ∧
    wardRevSum District.unallocated_funds_2025 2 (joinedRows [demo100] demoWardRows)
      = 100 * cps := by
  have hj : joinedRows [demo100] demoWardRows
      = [⟨demo100, 1, 1 / 10⟩, ⟨demo100, 2, 9 / 10⟩] := rfl
  refine ⟨wardSum_setCoverage f w g rows,
    wardSum_setCoverage (fun d => f d * cps) w g rows, ?_, ?_, ?_, ?_⟩ <;>
    rw [hj] <;> norm_num [wardSum, wardRevSum, wardRows, demo100]

/-- C1: for both multi-row subsets (the top-5 table and a ward's set of
joined rows) the reported CPS minimum is the sum of the rows' per-row
minima times the CPS share, the reported CPS maximum is the sum of per-row
maxima times the CPS share, and on a concrete two-row subset this value
differs from the minimum of the per-method column sums. -/
theorem subset_range_is_sum_of_row_ranges (l : List District) (w : Int)
    (rows : List JoinedRow) :
    top5CpsMinValue l = ((top5 l).map rowMin).sum * cps ∧
    top5CpsMaxValue l = ((top5 l).map rowMax).sum * cps ∧
    wardCpsMinValue w rows
      = ((wardRows w rows).map (fun r => rowMin r.district)).sum * cps ∧
    wardCpsMaxValue w rows
      = ((wardRows w rows).map (fun r => rowMax r.district)).sum * cps ∧
    top5CpsMinValue [demoA, demoB] ≠ cityRawMin [demoA, demoB] * cps := by
  unfold top5CpsMinValue top5CpsMaxValue wardCpsMinValue wardCpsMaxValue
  refine ⟨?_, ?_, ?_, ?_, ?_⟩
  · apply sumMapMulRight
  · apply sumMapMulRight
  · apply sumMapMulRight
  · apply sumMapMulRight
  have hsort : ([demoA, demoB].mergeSort polyLe) = [demoA, demoB] :=
    List.mergeSort_of_sorted (by decide)
  unfold top5
  rw [hsort]
  unfold cityRawMin colSum
  norm_num [rowMin, min5, min_def, demoA, demoB, cps]

/-- C10: since the CPS share is positive, each displayed CPS minimum and
maximum is the share times the corresponding raw minimum and maximum for
the city-wide table, the selected-district table, and each top-5 row, and
every displayed minimum is at most its paired maximum. -/
theorem cps_commutes_with_min_max (l : List District) (d : District) :
    cityCpsMin l = cps * cityRawMin l ∧
    cityCpsMax l = cps * cityRawMax l ∧
    cityCpsMin l ≤ cityCpsMax l ∧
    districtCpsMin d = cps * rowMin d ∧
    districtCpsMax d = cps * rowMax d ∧
    districtCpsMin d ≤ districtCpsMax d ∧
    rowMin d * cps = cps * rowMin d ∧
    rowMax d * cps = cps * rowMax d ∧
    rowMin d * cps ≤ rowMax d * cps := by
  refine ⟨?_, ?_, ?_, ?_, ?_, ?_, mul_comm _ _, mul_comm _ _, ?_⟩
  · unfold cityCpsMin cityRawMin
    rw [min5MulRight _ _ _ _ _ cps cps_nonneg, mul_comm]
  · unfold cityCpsMax cityRawMax
    rw [max5MulRight _ _ _ _ _ cps cps_nonneg, mul_comm]
  · exact min5_le_max5 _ _ _ _ _
  · unfold districtCpsMin rowMin
    rw [min5MulRight _ _ _ _ _ cps cps_nonneg, mul_comm]
  · unfold districtCpsMax rowMax
    rw [max5MulRight _ _ _ _ _ cps cps_nonneg, mul_comm]
  · exact min5_le_max5 _ _ _ _ _
  · exact mul_le_mul_of_nonneg_right (min5_le_max5 _ _ _ _ _) cps_nonneg

/-- C9 counterexample: an input table that exists but cannot be read is a
table that "cannot be located or read", yet the except clause of app.py
line 18 names only `FileNotFoundError`, so the read error escapes both
`load_data` and `main` uncaught: no `DataUnavailable` outcome, no
user-visible message, contrary to the claim's "no exception escapes". -/
theorem data_unavailable_read_error_escapes :
    load_data ⟨FileState.unreadable, FileState.readable []⟩
      = Except.error ReadError.otherError ∧
    appMain ⟨FileState.unreadable, FileState.readable []⟩
      = Except.error ReadError.otherError := ⟨rfl, rfl⟩

/-- C9 amended: when either input file is missing — raising the
`FileNotFoundError` that app.py line 18 actually catches (for the ward
table, the district table must itself be readable, since it is read
first) — loading completes with no tables plus the user-visible message,
no exception escapes, and main renders nothing at all. -/
theorem data_unavailable_halts (env : Env)
    (h : env.data_csv = FileState.missing ∨
      ((∃ d, env.data_csv = FileState.readable d) ∧
        env.ward_csv = FileState.missing)) :
    appMain env = Except.ok none ∧
    load_data env = Except.ok ⟨none, some loadErrorMessage⟩ := by
  rcases h with h | ⟨⟨d, hd⟩, hw⟩
  · constructor <;> simp [appMain, load_data, read_csv, h]
  · constructor <;> simp [appMain, load_data, read_csv, hd, hw]

/-- Witness: with the district table missing and the ward table readable,
nothing is rendered and the load outcome carries the error message. -/
theorem data_unavailable_halts_witness :
    appMain ⟨FileState.missing, FileState.readable []⟩ = Except.ok none ∧
    load_data ⟨FileState.missing, FileState.readable []⟩
      = Except.ok ⟨none, some loadErrorMessage⟩ :=
  data_unavailable_halts ⟨FileState.missing, FileState.readable []⟩ (Or.inl rfl)

/-- C4: a raw identifier whose remainder after the first two characters is
a digit string of value n maps to T- followed by the rendering of n
zero-padded to at least three characters; zero-padding only prepends zero
characters and never truncates (the padded length is exactly the maximum
of 3 and the digit-string length); rows with a null raw identifier are
excluded by the normalization pipeline; and concretely TF007 maps to
T-007 while TF1234 maps to T-1234. -/
theorem key_normalization (raw : String) (n : Nat)
    (h : parseNat? (raw.data.drop 2) = some n) :
    normalizeTifNum raw = some ("T-" ++ zfill 3 (pythonStrip (toString n))) ∧
    (∀ s : String, ∃ pre : List Char, zfill 3 s = String.mk (pre ++ s.data) ∧
      (∀ c ∈ pre, c = '0') ∧ s.length + pre.length = max 3 s.length) ∧
    (∀ r : WardRow, r.tif_num = none → normalizedWardRows [r] = []) ∧
    normalizeTifNum "TF007" = some "T-007" ∧
    normalizeTifNum "TF1234" = some "T-1234" := by
  refine ⟨?_, ?_, ?_, by decide, by decide⟩
  · unfold normalizeTifNum
    rw [h]
    rfl
  · intro s
    by_cases h3 : 3 ≤ s.length
    · refine ⟨[], ?_, by simp, ?_⟩
      · unfold zfill
        rw [if_pos h3]
        rfl
      · simp [Nat.max_eq_right h3]
    · refine ⟨List.replicate (3 - s.length) '0', ?_, ?_, ?_⟩
      · unfold zfill
        rw [if_neg h3]
        rfl
      · intro c hc
        exact List.eq_of_mem_replicate hc
      · simp only [List.length_replicate]
        omega
  · intro r hr
    simp [normalizedWardRows, hr]

/-- Witness for key normalization at the raw identifier TF007. -/
theorem key_normalization_witness :
    normalizeTifNum "TF007" = some ("T-" ++ zfill 3 (pythonStrip (toString 7))) :=
  (key_normalization "TF007" 7 (by decide)).1

theorem polyLe_trans (a b c : District) (h1 : polyLe a b) (h2 : polyLe b c) :
    polyLe a c := by
  simp only [polyLe, decide_eq_true_eq] at *
  exact le_trans h2 h1

theorem polyLe_total (a b : District) : polyLe a b || polyLe b a := by
  simp only [polyLe, Bool.or_eq_true, decide_eq_true_eq]
  exact le_total _ _

/-- C6: the top-5 selection keeps records whose designated-column value is
at least that of every record left in the sorted remainder; kept plus
remainder is a permutation of the input; with at most five records the
whole input is returned (as a permutation, no error); kept records are
records of the input, amounts untouched; and ties are broken by input
order: any equal-key sublist of the input survives as a sublist of the
stable descending sort whose first five entries are kept. -/
theorem top5_selection (l : List District) :
    (∀ x ∈ top5 l, ∀ y ∈ (l.mergeSort polyLe).drop 5,
      y.full_surplus_poly_method_25 ≤ x.full_surplus_poly_method_25) ∧
    (top5 l ++ (l.mergeSort polyLe).drop 5).Perm l ∧
    (l.length ≤ 5 → (top5 l).Perm l) ∧
    (∀ x ∈ top5 l, x ∈ l) ∧
    (∀ c : List District, c.Sublist l →
      c.Pairwise (fun a b =>
        a.full_surplus_poly_method_25 = b.full_surplus_poly_method_25) →
      c.Sublist (l.mergeSort polyLe)) := by
  have hs := List.sorted_mergeSort polyLe_trans polyLe_total l
  refine ⟨?_, ?_, ?_, ?_, ?_⟩
  · intro x hx y hy
    rw [← List.take_append_drop 5 (l.mergeSort polyLe)] at hs
    have h3 := (List.pairwise_append.mp hs).2.2 x hx y hy
    simpa [polyLe] using h3
  · unfold top5
    rw [List.take_append_drop]
    exact List.mergeSort_perm l polyLe
  · intro hlen
    unfold top5
    rw [List.take_of_length_le (by simpa using hlen)]
    exact List.mergeSort_perm l polyLe
  · intro x hx
    have h4 : x ∈ l.mergeSort polyLe := List.take_subset 5 _ hx
    exact List.mem_mergeSort.mp h4
  · intro c hsub hp
    refine List.sublist_mergeSort polyLe_trans polyLe_total ?_ hsub
    refine hp.imp ?_
    intro a b hab
    simp only [polyLe, decide_eq_true_eq]
    exact le_of_eq hab.symm

/-- Witness: a two-record table is shorter than five records, so the
selection returns it whole. -/
theorem top5_selection_witness : (top5 [demoA, demoB]).Perm [demoA, demoB] :=
  (top5_selection [demoA, demoB]).2.2.1 (by decide)

end TifApp
